import Mathlib

set_option linter.unusedVariables false

/-!
Verification of the system-metrics streaming orchestrator
(`agent/system_metrics.go`).

The Go code is shallowly embedded as executable Lean functions.
Concurrency is linearized: each stream supervisor (`timedCollect`
goroutine) is modelled as a function from a "fuel" value (the number of
timer ticks it observes before its cancellation context fires) to the
writes it performs and the errors it records; the watcher
(`closeOnCancel`) and `cleanup` run after all supervisors have finished,
exactly as enforced in the source by `s.stream.Wait()`.  Interactions
with the remote cedar client are modelled by an oracle (`ClientOracle`)
deciding which remote calls succeed, and every remote call is logged in
an event trace so that ordering and exactly-once properties can be
stated.
-/

namespace SystemMetrics

/-- Byte payload produced by one metric collection (Go `[]byte`). -/
abbrev Bytes := List Nat

/-- Go `dataFormat`, an `int32` enumeration describing how the time series
data is stored. -/
abbrev dataFormat := Int

def dataFormatText : dataFormat := 0
def dataFormatFTDC : dataFormat := 1
def dataFormatBSON : dataFormat := 2
def dataFormatJSON : dataFormat := 3
def dataFormatCSV : dataFormat := 4

/-- Go `dataFormat.validate`: accepts exactly the five enumerated values,
returns an error (`some msg`) otherwise. -/
def dataFormat.validate (f : dataFormat) : Option String :=
  if f = dataFormatText ∨ f = dataFormatFTDC ∨ f = dataFormatBSON ∨
      f = dataFormatJSON ∨ f = dataFormatCSV then
    none
  else
    some "invalid schema type specified"

/-- Outcome of one `metricCollector.Collect` invocation.  A Go panic inside
the collection is a distinct outcome because `timedCollect` recovers it. -/
inductive CollectOutcome where
  | ok (data : Bytes)
  | err (msg : String)
  | panicked (msg : String)
deriving Repr

/-- Go `metricCollector` interface: `Name`, `Format`, `Collect`.
`collect n` is the outcome of the (n+1)-st invocation. -/
structure MetricCollector where
  name : String
  format : dataFormat
  collect : Nat → CollectOutcome

/-- The fields of `task.Task` read by `getSystemMetricsInfo`. -/
structure Task where
  project : String
  version : String
  buildVariant : String
  displayName : String
  id : String
  execution : Int
  isPatchRequest : Bool
deriving Repr, DecidableEq

/-- Go `metrics.SystemMetricsOptions` (subject metadata of the session). -/
structure SystemMetricsOptions where
  project : String
  version : String
  variant : String
  taskName : String
  taskId : String
  execution : Int
  mainline : Bool
deriving Repr, DecidableEq

/-- Go `getSystemMetricsInfo`. -/
def getSystemMetricsInfo (t : Task) : SystemMetricsOptions :=
  { project := t.project
    version := t.version
    variant := t.buildVariant
    taskName := t.displayName
    taskId := t.id
    execution := t.execution
    mainline := !t.isPatchRequest }

/-- Go `metrics.StreamOpts` (timber stream buffer tuning). -/
structure StreamOpts where
  flushInterval : Int
  noTimedFlush : Bool
  maxBufferSize : Int
deriving Repr, DecidableEq

/-- Go `time.Minute` in nanoseconds. -/
def timeMinute : Int := 60000000000

/-- Go `systemMetricsCollectorOptions`.  `comm`/`conn` are opaque: only
their presence matters to this subsystem.  Durations are nanosecond
counts (`Int`), as in Go's `time.Duration`. -/
structure systemMetricsCollectorOptions where
  task : Option Task
  interval : Int
  collectors : List MetricCollector
  comm : Option Unit
  conn : Option Unit
  maxBufferSize : Int
  noBufferTimedFlush : Bool
  bufferTimedFlushInterval : Int

/-- Continuation of `systemMetricsCollectorOptions.validate` after the
interval has been checked and normalized (the Go code mutates
`s.Interval` in place and then keeps checking the remaining fields). -/
def validateAfterInterval (s : systemMetricsCollectorOptions) :
    Except String systemMetricsCollectorOptions :=
  if s.collectors.isEmpty then
    .error "must provide at least one metricCollector"
  else if (s.comm.isNone && s.conn.isNone) || (s.comm.isSome && s.conn.isSome) then
    .error "must provide either a communicator or an existing client connection"
  else if s.bufferTimedFlushInterval < 0 then
    .error "flush interval must not be negative"
  else if s.maxBufferSize < 0 then
    .error "buffer size must not be negative"
  else
    .ok s

/-- Go `systemMetricsCollectorOptions.validate`: check-and-normalize, in
source order; on success returns the normalized options. -/
def systemMetricsCollectorOptions.validate (s : systemMetricsCollectorOptions) :
    Except String systemMetricsCollectorOptions :=
  if s.task.isNone then
    .error "must provide a valid task"
  else if s.interval < 0 then
    .error "interval cannot be negative"
  else if s.interval = 0 then
    validateAfterInterval { s with interval := timeMinute }
  else
    validateAfterInterval s

/-- Remote-call events, recorded in order of invocation.  These model the
calls made on the `metrics.SystemMetricsClient` and on the per-metric
write streams. -/
inductive Event where
  | openStream (metric : String) (format : dataFormat)
  | write (metric : String) (data : Bytes)
  | closeStream (metric : String)
  | closeSession (id : String) (hadErrors : Bool)
  | closeClient
deriving Repr, DecidableEq

/-- Oracle deciding the outcome of every external interaction: remote
client construction and calls, per-metric write failures, and how many
timer ticks each supervisor observes before its context is cancelled. -/
structure ClientOracle where
  createClient : Except String Unit
  createRecord : Except String String
  openStream : String → Option String
  writeErr : String → Nat → Option String
  closeStreamErr : String → Option String
  closeSessionErr : Option String
  closeClientErr : Option String

/-- Go `systemMetricsCollector`.  `streamingCancelSet` models
`streamingCancel != nil`; `streamingCancelled` models the derived
context having been cancelled; `clientPresent` models `client != nil`;
`streamWG`/`closeWG` are the two `sync.WaitGroup` counters; `events` is
the history of remote calls (an auxiliary trace variable). -/
structure systemMetricsCollector where
  taskOpts : Option SystemMetricsOptions
  streamOpts : StreamOpts
  interval : Int
  collectors : List MetricCollector
  catcher : List String
  id : String
  closed : Bool
  streamingCancelSet : Bool
  streamingCancelled : Bool
  clientPresent : Bool
  streamWG : Nat
  closeWG : Nat
  events : List Event

/-- Result of `newSystemMetricsCollector`: the constructed collector (or a
validation/client error) together with whether a remote client resource
was actually acquired. -/
structure NewResult where
  result : Except String systemMetricsCollector
  clientAcquired : Bool

/-- Go `errors.Wrap(err, msg)` message shape. -/
def wrapMsg (msg inner : String) : String := msg ++ ": " ++ inner

/-- Go `newSystemMetricsCollector`: validate, then construct the client. -/
def newSystemMetricsCollector (o : ClientOracle)
    (opts : systemMetricsCollectorOptions) : NewResult :=
  match opts.validate with
  | .error e => { result := .error (wrapMsg "invalid options" e), clientAcquired := false }
  | .ok v =>
    match o.createClient with
    | .error e =>
      { result := .error (wrapMsg "problem creating new system metrics client" e)
        clientAcquired := false }
    | .ok _ =>
      { result := .ok
          { taskOpts := v.task.map getSystemMetricsInfo
            streamOpts :=
              { flushInterval := v.bufferTimedFlushInterval
                noTimedFlush := v.noBufferTimedFlush
                maxBufferSize := v.maxBufferSize }
            interval := v.interval
            collectors := v.collectors
            catcher := []
            id := ""
            closed := false
            streamingCancelSet := false
            streamingCancelled := false
            clientPresent := true
            streamWG := 0
            closeWG := 0
            events := [] }
        clientAcquired := true }

/-- Result of the stream-opening loop inside `Start`. -/
structure OpenLoopResult where
  state : systemMetricsCollector
  launched : List MetricCollector
  openErr : Option String

/-- The `for _, collector := range s.collectors` loop of `Start`: open a
write stream per collector; on the first failure cancel the derived
scope, clear the cancel function, and stop with that error; on success
increment the stream `WaitGroup` and launch the supervisor. -/
def startLoop (o : ClientOracle) (rid : String) :
    List MetricCollector → systemMetricsCollector → List MetricCollector →
    OpenLoopResult
  | [], s, acc => { state := s, launched := acc, openErr := none }
  | c :: rest, s, acc =>
    let s1 := { s with events := s.events ++ [Event.openStream c.name c.format] }
    match o.openStream c.name with
    | some e =>
      { state := { s1 with streamingCancelled := true, streamingCancelSet := false }
        launched := acc
        openErr := some (wrapMsg
          ("problem creating system metrics stream for id " ++ rid ++
            " and metricType " ++ c.name) e) }
    | none =>
      startLoop o rid rest
        { s1 with streamWG := s1.streamWG + 1 } (acc ++ [c])

/-- Result of `Start`: the post-state, the returned error, the supervisors
actually launched, and whether the `closeOnCancel` watcher was started. -/
structure StartResult where
  state : systemMetricsCollector
  err : Option String
  launched : List MetricCollector
  watcherStarted : Bool

/-- Go `systemMetricsCollector.Start`: create the session record, derive
the cancellable streaming context, open one stream per collector and
launch its supervisor, then start the `closeOnCancel` watcher. -/
def systemMetricsCollector.Start (s : systemMetricsCollector) (o : ClientOracle) :
    StartResult :=
  match o.createRecord with
  | .error e =>
    { state := s
      err := some (wrapMsg "problem creating cedar system metrics metadata object" e)
      launched := []
      watcherStarted := false }
  | .ok rid =>
    let r := startLoop o rid s.collectors
      { s with id := rid, streamingCancelSet := true } []
    match r.openErr with
    | some e =>
      { state := r.state, err := some e, launched := r.launched, watcherStarted := false }
    | none =>
      { state := { r.state with closeWG := r.state.closeWG + 1 }
        err := none
        launched := r.launched
        watcherStarted := true }

/-- Why a supervisor's collect-and-write loop stopped. -/
inductive StopReason where
  | cancelled
  | collectFailed (msg : String)
  | writeFailed (msg : String)
  | panicked (msg : String)
deriving Repr, DecidableEq

/-- The `for { select ... } }` loop body of `timedCollect`.  `fuel` is the
number of timer firings delivered before `ctx.Done()` wins the select;
`tick` counts collections performed so far; `now` is the virtual time of
the pending timer (the first timer fires at 0, each later one `interval`
after the previous successful iteration).  Returns the written payloads
with their times, and the reason the loop stopped. -/
def collectLoop (o : ClientOracle) (mc : MetricCollector) (interval : Int) :
    Nat → Nat → Int → List (Bytes × Int) × StopReason
  | 0, _, _ => ([], .cancelled)
  | fuel + 1, tick, now =>
    match mc.collect tick with
    | .panicked m => ([], .panicked m)
    | .err m => ([], .collectFailed m)
    | .ok data =>
      match o.writeErr mc.name tick with
      | some m => ([], .writeFailed m)
      | none =>
        let r := collectLoop o mc interval fuel (tick + 1) (now + interval)
        ((data, now) :: r.1, r.2)

/-- What one supervisor did over its whole life: the payloads written to
its stream (with virtual write times), the errors it added to the shared
catcher, and the remote-call events it produced. -/
structure SupRun where
  writes : List (Bytes × Int)
  errors : List String
  events : List Event

def collectErrMsg (rid name inner : String) : String :=
  wrapMsg ("problem collecting system metrics data for id " ++ rid ++
    " and metricType " ++ name) inner

def writeErrMsg (rid name inner : String) : String :=
  wrapMsg ("problem writing system metrics data to stream for id " ++ rid ++
    " and metricType " ++ name) inner

def panicErrMsg (rid name inner : String) : String :=
  wrapMsg ("panic in system metrics stream for id " ++ rid ++
    " and metricType " ++ name) inner

def closeStreamErrMsg (rid name inner : String) : String :=
  wrapMsg ("problem closing system metrics stream for id " ++ rid ++
    " and metricType " ++ name) inner

/-- Go `systemMetricsCollector.timedCollect`: run the timed loop, then the
deferred block: record a recovered panic (if any), close the stream and
record any close error.  (`s.stream.Done()` is modelled by the caller,
`runSupervisors`, decrementing `streamWG`.) -/
def timedCollect (o : ClientOracle) (rid : String) (interval : Int)
    (mc : MetricCollector) (fuel : Nat) : SupRun :=
  let r := collectLoop o mc interval fuel 0 0
  let loopErrs : List String :=
    match r.2 with
    | .collectFailed m => [collectErrMsg rid mc.name m]
    | .writeFailed m => [writeErrMsg rid mc.name m]
    | _ => []
  let panicErrs : List String :=
    match r.2 with
    | .panicked m => [panicErrMsg rid mc.name m]
    | _ => []
  let closeErrs : List String :=
    match o.closeStreamErr mc.name with
    | some m => [closeStreamErrMsg rid mc.name m]
    | none => []
  { writes := r.1
    errors := loopErrs ++ panicErrs ++ closeErrs
    events := (r.1.map fun wd => Event.write mc.name wd.1) ++ [Event.closeStream mc.name] }

/-- Run every launched supervisor to completion (linearized in launch
order), merging each one's errors into the shared catcher, its remote
calls into the trace, and decrementing the stream `WaitGroup` as its
deferred `s.stream.Done()` runs. -/
def runSupervisors (o : ClientOracle) (fuel : String → Nat) :
    List MetricCollector → systemMetricsCollector → systemMetricsCollector
  | [], s => s
  | c :: rest, s =>
    let r := timedCollect o s.id s.interval c (fuel c.name)
    runSupervisors o fuel rest
      { s with catcher := s.catcher ++ r.errors
               events := s.events ++ r.events
               streamWG := s.streamWG - 1 }

/-- Go `grip.Catcher.HasErrors`. -/
def hasErrors (catcher : List String) : Bool := !catcher.isEmpty

/-- Go `grip.Catcher.Resolve`: the combined error, or `none` if no error
was recorded. -/
def resolve (catcher : List String) : Option (List String) :=
  if catcher.isEmpty then none else some catcher

/-- Go `systemMetricsCollector.cleanup`, after `s.stream.Wait()` has
returned (callers invoke it only once every supervisor has finished):
under the mutex, close the session record (with the had-errors flag read
from the catcher at that moment), close the client, and mark the
instance closed. -/
def systemMetricsCollector.cleanup (s : systemMetricsCollector) (o : ClientOracle) :
    systemMetricsCollector :=
  if s.clientPresent then
    let s1 :=
      if s.id ≠ "" then
        let flag := hasErrors s.catcher
        let sessErrs : List String :=
          match o.closeSessionErr with
          | some m =>
            [wrapMsg ("error closing out system metrics object for id " ++ s.id) m]
          | none => []
        { s with events := s.events ++ [Event.closeSession s.id flag]
                 catcher := s.catcher ++ sessErrs }
      else s
    let clientErrs : List String :=
      match o.closeClientErr with
      | some m => [wrapMsg ("error closing system metrics client for id " ++ s1.id) m]
      | none => []
    { s1 with events := s1.events ++ [Event.closeClient]
              catcher := s1.catcher ++ clientErrs
              closed := true }
  else
    { s with closed := true }

/-- Which of the two `select` arms of `closeOnCancel` fires: the outer
(caller-supplied) context, or the derived streaming context. -/
inductive Wake where
  | outer
  | streaming
deriving Repr, DecidableEq

/-- Go `systemMetricsCollector.closeOnCancel`: on the outer arm, cancel
the derived scope, run cleanup and log (`grip.Error`) the resolved
catcher; on the streaming arm, just run cleanup.  The second component is
the logged combined error of the outer arm.  In both arms the deferred
`s.close.Done()` decrements `closeWG`. -/
def systemMetricsCollector.closeOnCancel (s : systemMetricsCollector)
    (o : ClientOracle) (w : Wake) : systemMetricsCollector × Option (List String) :=
  match w with
  | .outer =>
    let s1 := { s with streamingCancelled := true }
    let s2 := s1.cleanup o
    ({ s2 with closeWG := s2.closeWG - 1 }, resolve s2.catcher)
  | .streaming =>
    let s2 := s.cleanup o
    ({ s2 with closeWG := s2.closeWG - 1 }, none)

/-- Outcome of a `Close` call.  `nilCancelPanic` marks the run-time fault
of invoking a `nil` `context.CancelFunc`. -/
inductive CloseOutcome where
  | alreadyClosed (msg : String)
  | nilCancelPanic
  | ok (res : Option (List String))
deriving Repr

/-- Go `systemMetricsCollector.Close`: reject if already closed; otherwise
invoke `streamingCancel` (a run-time fault if it is `nil`), wait for the
watcher — which entails every supervisor finishing and the watcher's
streaming arm running cleanup — then return the resolved catcher.
`launched` are the supervisors running since `Start`; `fuel` gives the
ticks each observes before the cancellation reaches it. -/
def systemMetricsCollector.Close (s : systemMetricsCollector) (o : ClientOracle)
    (fuel : String → Nat) (launched : List MetricCollector) :
    systemMetricsCollector × CloseOutcome :=
  if s.closed then
    (s, .alreadyClosed "system metrics collector already cancelled or closed")
  else if s.streamingCancelSet then
    let s1 := { s with streamingCancelled := true }
    let s2 := runSupervisors o fuel launched s1
    let fin := s2.closeOnCancel o .streaming
    (fin.1, .ok (resolve fin.1.catcher))
  else
    (s, .nilCancelPanic)

/-- The terminal state and logged error of a run that is ended by external
cancellation of the caller-supplied context (no `Close` call): the
supervisors observe the (transitively cancelled) streaming context and
finish, then the watcher's outer arm runs cleanup and logs the combined
error. -/
def externalCancelFinal (o : ClientOracle) (fuel : String → Nat)
    (s0 : systemMetricsCollector) : systemMetricsCollector × Option (List String) :=
  (runSupervisors o fuel (s0.Start o).launched (s0.Start o).state).closeOnCancel o .outer

/-- The terminal state reached from a successful `Start` once the watcher
has run, for either wake-up arm. -/
def watcherFinal (o : ClientOracle) (fuel : String → Nat) (w : Wake)
    (s0 : systemMetricsCollector) : systemMetricsCollector :=
  ((runSupervisors o fuel (s0.Start o).launched (s0.Start o).state).closeOnCancel o w).1

/-- `Start` immediately followed by a graceful `Close`. -/
def runStartClose (o : ClientOracle) (fuel : String → Nat)
    (s0 : systemMetricsCollector) : systemMetricsCollector × CloseOutcome :=
  ((s0.Start o).state).Close o fuel (s0.Start o).launched

/-- Event classifiers used to state trace properties. -/
def isOpenStreamEv : Event → Bool
  | .openStream _ _ => true
  | _ => false

def isSupEvent : Event → Bool
  | .write _ _ => true
  | .closeStream _ => true
  | _ => false

def isCloseSessionEv : Event → Bool
  | .closeSession _ _ => true
  | _ => false

def isCloseClientEv : Event → Bool
  | .closeClient => true
  | _ => false

def countCloseSession (es : List Event) : Nat := es.countP fun e => isCloseSessionEv e

def countCloseClient (es : List Event) : Nat := es.countP fun e => isCloseClientEv e

def isOkE {ε α : Type} : Except ε α → Bool
  | .ok _ => true
  | .error _ => false

/-! ### Concrete fixtures used for witnesses and counterexamples -/

def goodTask : Task :=
  { project := "proj", version := "v1", buildVariant := "bv", displayName := "t"
    id := "tid", execution := 0, isPatchRequest := false }

/-- A collector that always succeeds, returning `[n]` on the n-th tick. -/
def uptimeC : MetricCollector :=
  { name := "uptime", format := dataFormatText, collect := fun n => .ok [n] }

/-- A collector that succeeds on its first tick and fails on its second. -/
def diskC : MetricCollector :=
  { name := "disk", format := dataFormatJSON
    collect := fun n => if n = 0 then .ok [7] else .err "disk failure" }

/-- A collector whose format is outside the enumerated `dataFormat` set. -/
def badFormatC : MetricCollector :=
  { name := "uptime", format := 7, collect := fun _ => .ok [1] }

/-- A collector that panics on its second tick. -/
def flakyC : MetricCollector :=
  { name := "flaky", format := dataFormatText
    collect := fun n => if n = 0 then .ok [9] else .panicked "boom" }

/-- A collector whose collections succeed; its stream write is failed by
`oracleC4`. -/
def netC : MetricCollector :=
  { name := "net", format := dataFormatCSV, collect := fun n => .ok [n, n] }

/-- An oracle on which every remote interaction succeeds. -/
def oracleOk : ClientOracle :=
  { createClient := .ok (), createRecord := .ok "sid"
    openStream := fun _ => none, writeErr := fun _ _ => none
    closeStreamErr := fun _ => none, closeSessionErr := none, closeClientErr := none }

/-- Like `oracleOk`, but opening the stream for metric "disk" fails. -/
def oracleOpenFail : ClientOracle :=
  { oracleOk with
    openStream := fun n => if n = "disk" then some "stream open refused" else none }

/-- Like `oracleOk`, but session-record creation fails. -/
def oracleRecordFail : ClientOracle :=
  { oracleOk with createRecord := .error "record refused" }

/-- Like `oracleOk`, but the first write on the "net" stream fails. -/
def oracleC4 : ClientOracle :=
  { oracleOk with
    writeErr := fun n k => if n = "net" ∧ k = 0 then some "write refused" else none }

def goodOpts : systemMetricsCollectorOptions :=
  { task := some goodTask, interval := 10, collectors := [uptimeC, diskC]
    comm := some (), conn := none, maxBufferSize := 0
    noBufferTimedFlush := false, bufferTimedFlushInterval := 0 }

def zeroIntervalOpts : systemMetricsCollectorOptions :=
  { goodOpts with interval := 0 }

def badOpts : systemMetricsCollectorOptions :=
  { goodOpts with collectors := [badFormatC] }

/-- The collector state `newSystemMetricsCollector oracleOk goodOpts` builds. -/
def s0good : systemMetricsCollector :=
  { taskOpts := some (getSystemMetricsInfo goodTask)
    streamOpts := { flushInterval := 0, noTimedFlush := false, maxBufferSize := 0 }
    interval := 10, collectors := [uptimeC, diskC], catcher := [], id := ""
    closed := false, streamingCancelSet := false, streamingCancelled := false
    clientPresent := true, streamWG := 0, closeWG := 0, events := [] }

def wfuel : String → Nat := fun _ => 3

/-! ### Claim theorems -/

/-- Claim C9: if creating the remote session record fails, `Start` returns
that error (wrapped) and does nothing else: the collector state is
untouched, no stream is opened, no supervisor is launched, and the
watcher task is not started. -/
theorem C9_session_create_failure (o : ClientOracle) (s : systemMetricsCollector)
    (e : String) (hr : o.createRecord = .error e) :
    (s.Start o).err
        = some (wrapMsg "problem creating cedar system metrics metadata object" e) ∧
    (s.Start o).state = s ∧
    (s.Start o).launched = [] ∧
    (s.Start o).watcherStarted = false := by
  simp [systemMetricsCollector.Start, hr]

/-- Witness for C9 at a concrete failing oracle. -/
theorem C9_witness :
    (s0good.Start oracleRecordFail).err
        = some (wrapMsg "problem creating cedar system metrics metadata object"
            "record refused") ∧
    (s0good.Start oracleRecordFail).state = s0good ∧
    (s0good.Start oracleRecordFail).launched = [] ∧
    (s0good.Start oracleRecordFail).watcherStarted = false :=
  C9_session_create_failure oracleRecordFail s0good "record refused" rfl

/-- Claim C7 counterexample: a configuration containing a metric source
whose encoding (7) is outside the five enumerated values passes
`systemMetricsCollectorOptions.validate` — which never inspects
collector encodings even though `dataFormat.validate` would reject the
value — and the unknown encoding is passed verbatim to stream opening
by `Start`. -/
theorem C7_counterexample :
    isOkE badOpts.validate = true ∧
    dataFormat.validate 7 = some "invalid schema type specified" ∧
    ∃ s, (newSystemMetricsCollector oracleOk badOpts).result = .ok s ∧
      Event.openStream "uptime" 7 ∈ (s.Start oracleOk).state.events := by
  refine ⟨rfl, by decide, ⟨_, rfl, ?_⟩⟩
  decide

/-- Claim C7 (amended): `dataFormat.validate` accepts exactly the five
enumerated encodings and rejects all others, but configuration
validation does not consult it: a configuration containing a metric
source with an unknown encoding still passes validation. -/
theorem C7_amended_encoding_validation (f : dataFormat) :
    (dataFormat.validate f = none ↔
      f = dataFormatText ∨ f = dataFormatFTDC ∨ f = dataFormatBSON ∨
        f = dataFormatJSON ∨ f = dataFormatCSV) ∧
    isOkE badOpts.validate = true := by
  refine ⟨?_, rfl⟩
  unfold dataFormat.validate
  split_ifs with h <;> simp [h]

/-- Claim C1 (code bug): when `Start` creates the session but an individual
stream open fails, `Start` does cancel the derived scope and return the
error — but it also sets `streamingCancel` to `nil`, so the `Close` call
that the doc comment on `Start` instructs the caller to make dereferences
a `nil` `context.CancelFunc` (a run-time fault); cleanup never runs, the
collector is never marked closed, and no session-close is ever issued, so
the session and client are not released. -/
theorem C1_close_faults_after_stream_open_failure :
    ((s0good.Start oracleOpenFail).err).isSome = true ∧
    (s0good.Start oracleOpenFail).state.streamingCancelled = true ∧
    (s0good.Start oracleOpenFail).state.streamingCancelSet = false ∧
    ∀ (fuel : String → Nat) (launched : List MetricCollector),
      ((s0good.Start oracleOpenFail).state.Close oracleOpenFail fuel launched).2
          = CloseOutcome.nilCancelPanic ∧
      ((s0good.Start oracleOpenFail).state.Close oracleOpenFail fuel launched).1.closed
          = false ∧
      countCloseSession
          ((s0good.Start oracleOpenFail).state.Close oracleOpenFail fuel launched).1.events
          = 0 := by
  exact ⟨rfl, rfl, rfl, fun fuel launched => ⟨rfl, rfl, rfl⟩⟩

/-- The tail of validation succeeds exactly when the collector list is
non-empty, exactly one of communicator/connection is supplied, and the
two buffer settings are non-negative. -/
lemma validateAfterInterval_isOk (s : systemMetricsCollectorOptions) :
    isOkE (validateAfterInterval s) = true ↔
      (s.collectors.isEmpty = false ∧ s.comm.isSome = s.conn.isNone ∧
        0 ≤ s.bufferTimedFlushInterval ∧ 0 ≤ s.maxBufferSize) := by
  obtain ⟨task, interval, collectors, comm, conn, maxB, noF, flushI⟩ := s
  unfold validateAfterInterval
  cases comm <;> cases conn <;>
    split_ifs <;> simp_all [isOkE]

/-- The tail of validation, when it succeeds, returns its input unchanged. -/
lemma validateAfterInterval_ok_val (s v : systemMetricsCollectorOptions)
    (h : validateAfterInterval s = .ok v) : v = s := by
  unfold validateAfterInterval at h
  split_ifs at h
  all_goals simp_all

/-- Claim C6: validation fails exactly when the task metadata is absent,
the interval is negative, the collector set is empty, both or neither of
communicator and connection are supplied, or the flush interval or max
buffer size is negative; a zero interval is normalized to one minute and
a positive interval is kept; and on any rejection no remote client is
acquired. -/
theorem C6_options_validation (o : ClientOracle) (s : systemMetricsCollectorOptions) :
    (isOkE s.validate = true ↔
      (s.task.isSome = true ∧ 0 ≤ s.interval ∧ s.collectors.isEmpty = false ∧
        s.comm.isSome = s.conn.isNone ∧ 0 ≤ s.bufferTimedFlushInterval ∧
        0 ≤ s.maxBufferSize)) ∧
    (s.interval = 0 → ∀ v, s.validate = .ok v → v.interval = timeMinute) ∧
    (0 < s.interval → ∀ v, s.validate = .ok v → v.interval = s.interval) ∧
    (isOkE s.validate = false → (newSystemMetricsCollector o s).clientAcquired = false) := by
  refine ⟨?_, ?_, ?_, ?_⟩
  · unfold systemMetricsCollectorOptions.validate
    split_ifs with h1 h2 h3
    · simp_all [isOkE, Option.isNone_iff_eq_none]
    · simp [isOkE]
      intro _ h
      omega
    · rw [validateAfterInterval_isOk]
      obtain ⟨task, interval, collectors, comm, conn, maxB, noF, flushI⟩ := s
      simp_all [Option.isNone_iff_eq_none, Option.isSome_iff_ne_none]
    · rw [validateAfterInterval_isOk]
      obtain ⟨task, interval, collectors, comm, conn, maxB, noF, flushI⟩ := s
      simp_all [Option.isNone_iff_eq_none, Option.isSome_iff_ne_none]
  · intro h0 v hv
    unfold systemMetricsCollectorOptions.validate at hv
    split_ifs at hv
    all_goals
      first
        | exact Except.noConfusion hv
        | omega
        | (have hval := validateAfterInterval_ok_val _ _ hv; subst hval; rfl)
  · intro h0 v hv
    unfold systemMetricsCollectorOptions.validate at hv
    split_ifs at hv
    all_goals
      first
        | exact Except.noConfusion hv
        | omega
        | (have hval := validateAfterInterval_ok_val _ _ hv; subst hval; rfl)
  · intro h
    unfold newSystemMetricsCollector
    cases hv : s.validate with
    | error e => rfl
    | ok v => simp [hv, isOkE] at h

/-! ### Structural lemmas about the lifecycle functions -/

/-- Unfolding equation for `startLoop` when opening the head stream fails. -/
lemma startLoop_cons_some (o : ClientOracle) (rid : String) (c : MetricCollector)
    (rest : List MetricCollector) (s : systemMetricsCollector)
    (acc : List MetricCollector) (e : String) (hc : o.openStream c.name = some e) :
    startLoop o rid (c :: rest) s acc =
      { state :=
          { s with
              events := s.events ++ [Event.openStream c.name c.format]
              streamingCancelled := true
              streamingCancelSet := false }
        launched := acc
        openErr := some (wrapMsg
          ("problem creating system metrics stream for id " ++ rid ++
            " and metricType " ++ c.name) e) } := by
  simp only [startLoop, hc]

/-- Unfolding equation for `startLoop` when opening the head stream
succeeds. -/
lemma startLoop_cons_none (o : ClientOracle) (rid : String) (c : MetricCollector)
    (rest : List MetricCollector) (s : systemMetricsCollector)
    (acc : List MetricCollector) (hc : o.openStream c.name = none) :
    startLoop o rid (c :: rest) s acc =
      startLoop o rid rest
        { s with
            events := s.events ++ [Event.openStream c.name c.format]
            streamWG := s.streamWG + 1 } (acc ++ [c]) := by
  simp only [startLoop, hc]

/-- When every stream open succeeds, the opening loop of `Start` adds one
`openStream` event per collector (in order), increments the stream
`WaitGroup` once per collector, launches every collector, and changes
nothing else. -/
lemma startLoop_ok (o : ClientOracle) (rid : String) :
    ∀ (cs : List MetricCollector) (s : systemMetricsCollector)
      (acc : List MetricCollector),
      (startLoop o rid cs s acc).openErr = none →
      (startLoop o rid cs s acc).state =
        { s with
            events := s.events ++ cs.map (fun c => Event.openStream c.name c.format)
            streamWG := s.streamWG + cs.length } ∧
      (startLoop o rid cs s acc).launched = acc ++ cs := by
  intro cs
  induction cs with
  | nil =>
    intro s acc _
    constructor
    · simp [startLoop]
    · simp [startLoop]
  | cons c rest ih =>
    intro s acc h
    cases hc : o.openStream c.name with
    | some e =>
      rw [startLoop_cons_some o rid c rest s acc e hc] at h
      simp at h
    | none =>
      rw [startLoop_cons_none o rid c rest s acc hc] at h ⊢
      obtain ⟨hstate, hlaunch⟩ := ih _ _ h
      constructor
      · rw [hstate]
        simp [List.append_assoc]
        omega
      · rw [hlaunch]
        simp

/-- `Start` succeeds iff every stream open succeeds (given the session
record was created). -/
lemma Start_err_none (o : ClientOracle) (s : systemMetricsCollector) (rid : String)
    (hr : o.createRecord = .ok rid) :
    (s.Start o).err = none ↔
      (startLoop o rid s.collectors
        { s with id := rid, streamingCancelSet := true } []).openErr = none := by
  unfold systemMetricsCollector.Start
  rw [hr]
  cases ho : (startLoop o rid s.collectors
      { s with id := rid, streamingCancelSet := true } []).openErr <;> simp [ho]

/-- A successful `Start` sets the session id, arms the derived cancel
function, opens one stream per collector, launches them all, and starts
the watcher. -/
lemma Start_ok_state (o : ClientOracle) (s : systemMetricsCollector) (rid : String)
    (hr : o.createRecord = .ok rid) (herr : (s.Start o).err = none) :
    (s.Start o).state =
      { s with
          id := rid
          streamingCancelSet := true
          events := s.events ++ s.collectors.map (fun c => Event.openStream c.name c.format)
          streamWG := s.streamWG + s.collectors.length
          closeWG := s.closeWG + 1 } ∧
    (s.Start o).launched = s.collectors := by
  have ho := (Start_err_none o s rid hr).mp herr
  obtain ⟨hstate, hlaunch⟩ := startLoop_ok o rid s.collectors _ [] ho
  simp only [systemMetricsCollector.Start, hr, ho]
  rw [hstate, hlaunch]
  simp

/-- The events of one supervisor run are its writes (in order) followed by
the close of its own stream. -/
lemma timedCollect_events (o : ClientOracle) (rid : String) (interval : Int)
    (mc : MetricCollector) (fuel : Nat) :
    (timedCollect o rid interval mc fuel).events =
      ((timedCollect o rid interval mc fuel).writes.map fun wd => Event.write mc.name wd.1)
        ++ [Event.closeStream mc.name] := rfl

lemma timedCollect_event_kinds (o : ClientOracle) (rid : String) (interval : Int)
    (mc : MetricCollector) (fuel : Nat) :
    ∀ e ∈ (timedCollect o rid interval mc fuel).events, isSupEvent e = true := by
  intro e he
  rw [timedCollect_events] at he
  rcases List.mem_append.mp he with h | h
  · obtain ⟨wd, _, rfl⟩ := List.mem_map.mp h
    rfl
  · simp only [List.mem_singleton] at h
    subst h
    rfl

lemma timedCollect_closeStream_mem (o : ClientOracle) (rid : String) (interval : Int)
    (mc : MetricCollector) (fuel : Nat) :
    Event.closeStream mc.name ∈ (timedCollect o rid interval mc fuel).events := by
  rw [timedCollect_events]
  simp

/-- Running the supervisors appends their errors to the catcher and their
write/close-stream events to the trace, decrements the stream `WaitGroup`
once per supervisor, and changes nothing else; every supervisor closes
its own stream. -/
lemma runSupervisors_spec (o : ClientOracle) (fuel : String → Nat) :
    ∀ (cs : List MetricCollector) (s : systemMetricsCollector),
      ∃ errs evs,
        runSupervisors o fuel cs s =
          { s with
              catcher := s.catcher ++ errs
              events := s.events ++ evs
              streamWG := s.streamWG - cs.length } ∧
        (∀ e ∈ evs, isSupEvent e = true) ∧
        (∀ c ∈ cs, Event.closeStream c.name ∈ evs) := by
  intro cs
  induction cs with
  | nil =>
    intro s
    exact ⟨[], [], by simp [runSupervisors], by simp, by simp⟩
  | cons c rest ih =>
    intro s
    obtain ⟨errs, evs, heq, hclass, hmem⟩ :=
      ih { s with
            catcher := s.catcher ++ (timedCollect o s.id s.interval c (fuel c.name)).errors
            events := s.events ++ (timedCollect o s.id s.interval c (fuel c.name)).events
            streamWG := s.streamWG - 1 }
    refine ⟨(timedCollect o s.id s.interval c (fuel c.name)).errors ++ errs,
      (timedCollect o s.id s.interval c (fuel c.name)).events ++ evs, ?_, ?_, ?_⟩
    · rw [runSupervisors, heq]
      simp [List.append_assoc, Nat.sub_sub]
      omega
    · intro e he
      rcases List.mem_append.mp he with h | h
      · exact timedCollect_event_kinds o s.id s.interval c (fuel c.name) e h
      · exact hclass e h
    · intro d hd
      rcases List.mem_cons.mp hd with h | h
      · subst h
        exact List.mem_append_left _ (timedCollect_closeStream_mem o s.id s.interval d (fuel d.name))
      · exact List.mem_append_right _ (hmem d h)

/-- Cleanup on a state holding a client and a session id appends exactly
the session close (flagged with the catcher state at that moment) and the
client close, and marks the collector closed. -/
lemma cleanup_spec (o : ClientOracle) (s : systemMetricsCollector)
    (hcp : s.clientPresent = true) (hid : s.id ≠ "") :
    (s.cleanup o).events
        = s.events ++ [Event.closeSession s.id (hasErrors s.catcher), Event.closeClient] ∧
    (s.cleanup o).closed = true := by
  unfold systemMetricsCollector.cleanup
  rw [hcp]
  rw [if_pos hid]
  simp

/-- Cleanup always marks the collector closed. -/
lemma cleanup_closed (s : systemMetricsCollector) (o : ClientOracle) :
    (s.cleanup o).closed = true := by
  unfold systemMetricsCollector.cleanup
  split_ifs <;> rfl

/-- A collector already marked closed is rejected by `Close` with the
explicit error, and nothing changes. -/
lemma Close_already (s : systemMetricsCollector) (o : ClientOracle)
    (fuel : String → Nat) (launched : List MetricCollector) (h : s.closed = true) :
    s.Close o fuel launched
      = (s, .alreadyClosed "system metrics collector already cancelled or closed") := by
  unfold systemMetricsCollector.Close
  rw [h]
  rfl

lemma countCloseSession_append (xs ys : List Event) :
    countCloseSession (xs ++ ys) = countCloseSession xs + countCloseSession ys := by
  simp [countCloseSession, List.countP_append]

lemma countCloseClient_append (xs ys : List Event) :
    countCloseClient (xs ++ ys) = countCloseClient xs + countCloseClient ys := by
  simp [countCloseClient, List.countP_append]

lemma supEvent_kinds (e : Event) (h : isSupEvent e = true) :
    isCloseSessionEv e = false ∧ isCloseClientEv e = false := by
  cases e <;> simp_all [isSupEvent, isCloseSessionEv, isCloseClientEv]

lemma countCloseSession_of_sup (evs : List Event)
    (h : ∀ e ∈ evs, isSupEvent e = true) : countCloseSession evs = 0 := by
  unfold countCloseSession
  rw [List.countP_eq_zero]
  intro e he
  simp [(supEvent_kinds e (h e he)).1]

lemma countCloseClient_of_sup (evs : List Event)
    (h : ∀ e ∈ evs, isSupEvent e = true) : countCloseClient evs = 0 := by
  unfold countCloseClient
  rw [List.countP_eq_zero]
  intro e he
  simp [(supEvent_kinds e (h e he)).2]

lemma countCloseSession_opens (cs : List MetricCollector) :
    countCloseSession (cs.map fun c => Event.openStream c.name c.format) = 0 := by
  unfold countCloseSession
  rw [List.countP_eq_zero]
  intro e he
  obtain ⟨c, _, rfl⟩ := List.mem_map.mp he
  simp [isCloseSessionEv]

lemma countCloseClient_opens (cs : List MetricCollector) :
    countCloseClient (cs.map fun c => Event.openStream c.name c.format) = 0 := by
  unfold countCloseClient
  rw [List.countP_eq_zero]
  intro e he
  obtain ⟨c, _, rfl⟩ := List.mem_map.mp he
  simp [isCloseClientEv]

/-- The watcher, woken on either arm, runs cleanup exactly once: it
appends the session close (flagged from the catcher at that moment) and
the client close to the trace, marks the collector closed, and on the
outer arm logs the resolved catcher. -/
lemma closeOnCancel_spec (o : ClientOracle) (w : Wake) (s : systemMetricsCollector)
    (hcp : s.clientPresent = true) (hid : s.id ≠ "") :
    (s.closeOnCancel o w).1.events
        = s.events ++ [Event.closeSession s.id (hasErrors s.catcher), Event.closeClient] ∧
    (s.closeOnCancel o w).1.closed = true ∧
    (s.closeOnCancel o w).2
        = (match w with
            | .outer => resolve (s.closeOnCancel o w).1.catcher
            | .streaming => none) := by
  cases w with
  | outer =>
    obtain ⟨h1, h2⟩ := cleanup_spec o { s with streamingCancelled := true }
      (by simpa using hcp) (by simpa using hid)
    refine ⟨?_, ?_, rfl⟩
    · simpa [systemMetricsCollector.closeOnCancel] using h1
    · simpa [systemMetricsCollector.closeOnCancel] using h2
  | streaming =>
    obtain ⟨h1, h2⟩ := cleanup_spec o s hcp hid
    refine ⟨?_, ?_, rfl⟩
    · simpa [systemMetricsCollector.closeOnCancel] using h1
    · simpa [systemMetricsCollector.closeOnCancel] using h2

/-- Witness for C6 at a zero-interval configuration, showing normalization
to one minute and the success criteria concretely. -/
theorem C6_witness :
    (isOkE zeroIntervalOpts.validate = true ↔
      (zeroIntervalOpts.task.isSome = true ∧ 0 ≤ zeroIntervalOpts.interval ∧
        zeroIntervalOpts.collectors.isEmpty = false ∧
        zeroIntervalOpts.comm.isSome = zeroIntervalOpts.conn.isNone ∧
        0 ≤ zeroIntervalOpts.bufferTimedFlushInterval ∧
        0 ≤ zeroIntervalOpts.maxBufferSize)) ∧
    (zeroIntervalOpts.interval = 0 → ∀ v, zeroIntervalOpts.validate = .ok v →
        v.interval = timeMinute) ∧
    (0 < zeroIntervalOpts.interval → ∀ v, zeroIntervalOpts.validate = .ok v →
        v.interval = zeroIntervalOpts.interval) ∧
    (isOkE zeroIntervalOpts.validate = false →
        (newSystemMetricsCollector oracleOk zeroIntervalOpts).clientAcquired = false) :=
  C6_options_validation oracleOk zeroIntervalOpts

/-- Claim C2: when `Start` succeeded and the caller-supplied context is
cancelled without `Close` being called, the remote session is finalized
exactly once, with the had-errors flag equal to whether the aggregator
held any recorded error at the moment of finalization (i.e. after all
supervisors have stopped appending, before the close errors are added),
and the aggregated combined error goes to the watcher's log slot, not to
any caller. -/
theorem C2_external_cancel_finalizes_once
    (o : ClientOracle) (fuel : String → Nat) (s0 : systemMetricsCollector)
    (rid : String) (hr : o.createRecord = .ok rid) (hrid : rid ≠ "")
    (hcp : s0.clientPresent = true) (hev : s0.events = [])
    (herr : (s0.Start o).err = none) :
    countCloseSession (externalCancelFinal o fuel s0).1.events = 1 ∧
    Event.closeSession rid
        (hasErrors (runSupervisors o fuel (s0.Start o).launched (s0.Start o).state).catcher)
      ∈ (externalCancelFinal o fuel s0).1.events ∧
    (externalCancelFinal o fuel s0).2
      = resolve (externalCancelFinal o fuel s0).1.catcher := by
  obtain ⟨hstate, hlaunch⟩ := Start_ok_state o s0 rid hr herr
  obtain ⟨errs, evs, hseq, hclass, hmem⟩ :=
    runSupervisors_spec o fuel (s0.Start o).launched (s0.Start o).state
  have hsupCP : (runSupervisors o fuel (s0.Start o).launched (s0.Start o).state).clientPresent
      = true := by
    rw [hseq, hstate]
    simpa using hcp
  have hsupID : (runSupervisors o fuel (s0.Start o).launched (s0.Start o).state).id
      = rid := by
    rw [hseq, hstate]
  have hsupEv : (runSupervisors o fuel (s0.Start o).launched (s0.Start o).state).events
      = (s0.collectors.map fun c => Event.openStream c.name c.format) ++ evs := by
    rw [hseq, hstate]
    simp [hev]
  obtain ⟨hfe, hfc, hfr⟩ := closeOnCancel_spec o .outer
    (runSupervisors o fuel (s0.Start o).launched (s0.Start o).state)
    hsupCP (by rw [hsupID]; exact hrid)
  refine ⟨?_, ?_, ?_⟩
  · show countCloseSession
        ((runSupervisors o fuel (s0.Start o).launched (s0.Start o).state).closeOnCancel
          o .outer).1.events = 1
    rw [hfe, hsupEv]
    rw [countCloseSession_append, countCloseSession_append,
      countCloseSession_opens, countCloseSession_of_sup evs hclass]
    simp [countCloseSession, List.countP_cons, List.countP_nil, isCloseSessionEv]
  · show Event.closeSession rid
        (hasErrors (runSupervisors o fuel (s0.Start o).launched (s0.Start o).state).catcher)
      ∈ ((runSupervisors o fuel (s0.Start o).launched (s0.Start o).state).closeOnCancel
          o .outer).1.events
    rw [hfe, hsupID]
    exact List.mem_append_right _ (List.mem_cons_self _ _)
  · exact hfr

/-- Witness for C2: external cancellation of a two-collector run on the
all-success oracle finalizes the session exactly once with the flag read
from the catcher, and the combined error goes to the log slot. -/
theorem C2_witness :
    countCloseSession (externalCancelFinal oracleOk wfuel s0good).1.events = 1 ∧
    Event.closeSession "sid"
        (hasErrors (runSupervisors oracleOk wfuel (s0good.Start oracleOk).launched
          (s0good.Start oracleOk).state).catcher)
      ∈ (externalCancelFinal oracleOk wfuel s0good).1.events ∧
    (externalCancelFinal oracleOk wfuel s0good).2
      = resolve (externalCancelFinal oracleOk wfuel s0good).1.catcher :=
  C2_external_cancel_finalizes_once oracleOk wfuel s0good "sid" rfl (by decide) rfl rfl rfl

/-- Claim C8: on either watcher arm, the final trace is exactly the
supervisor-phase trace — which contains the close of every launched
supervisor's stream and no session close — followed by the single session
close and the client close: the session is never closed while any
supervisor may still be writing. -/
theorem C8_session_close_after_all_streams
    (o : ClientOracle) (fuel : String → Nat) (w : Wake)
    (s0 : systemMetricsCollector) (rid : String)
    (hr : o.createRecord = .ok rid) (hrid : rid ≠ "")
    (hcp : s0.clientPresent = true) (hev : s0.events = [])
    (herr : (s0.Start o).err = none) :
    (watcherFinal o fuel w s0).events
        = (runSupervisors o fuel (s0.Start o).launched (s0.Start o).state).events
          ++ [Event.closeSession rid
                (hasErrors (runSupervisors o fuel (s0.Start o).launched
                  (s0.Start o).state).catcher),
              Event.closeClient] ∧
    (∀ c ∈ (s0.Start o).launched,
      Event.closeStream c.name
        ∈ (runSupervisors o fuel (s0.Start o).launched (s0.Start o).state).events) ∧
    countCloseSession
        (runSupervisors o fuel (s0.Start o).launched (s0.Start o).state).events = 0 := by
  obtain ⟨hstate, hlaunch⟩ := Start_ok_state o s0 rid hr herr
  obtain ⟨errs, evs, hseq, hclass, hmem⟩ :=
    runSupervisors_spec o fuel (s0.Start o).launched (s0.Start o).state
  have hsupCP : (runSupervisors o fuel (s0.Start o).launched (s0.Start o).state).clientPresent
      = true := by
    rw [hseq, hstate]
    simpa using hcp
  have hsupID : (runSupervisors o fuel (s0.Start o).launched (s0.Start o).state).id
      = rid := by
    rw [hseq, hstate]
  have hsupEv : (runSupervisors o fuel (s0.Start o).launched (s0.Start o).state).events
      = (s0.collectors.map fun c => Event.openStream c.name c.format) ++ evs := by
    rw [hseq, hstate]
    simp [hev]
  obtain ⟨hfe, hfc, hfr⟩ := closeOnCancel_spec o w
    (runSupervisors o fuel (s0.Start o).launched (s0.Start o).state)
    hsupCP (by rw [hsupID]; exact hrid)
  refine ⟨?_, ?_, ?_⟩
  · show ((runSupervisors o fuel (s0.Start o).launched (s0.Start o).state).closeOnCancel
        o w).1.events = _
    rw [hfe, hsupID]
  · intro c hc
    rw [hsupEv]
    exact List.mem_append_right _ (hmem c hc)
  · rw [hsupEv]
    rw [countCloseSession_append, countCloseSession_opens,
      countCloseSession_of_sup evs hclass]

/-- Witness for C8: in the concrete two-collector run ended by external
cancellation, the session close follows the whole supervisor phase, which
contains the close of the "uptime" stream and no session close. -/
theorem C8_witness :
    ((watcherFinal oracleOk wfuel .outer s0good).events
        = (runSupervisors oracleOk wfuel (s0good.Start oracleOk).launched
            (s0good.Start oracleOk).state).events
          ++ [Event.closeSession "sid"
                (hasErrors (runSupervisors oracleOk wfuel (s0good.Start oracleOk).launched
                  (s0good.Start oracleOk).state).catcher),
              Event.closeClient]) ∧
    Event.closeStream uptimeC.name
        ∈ (runSupervisors oracleOk wfuel (s0good.Start oracleOk).launched
            (s0good.Start oracleOk).state).events ∧
    countCloseSession
        (runSupervisors oracleOk wfuel (s0good.Start oracleOk).launched
          (s0good.Start oracleOk).state).events = 0 := by
  obtain ⟨h1, h2, h3⟩ := C8_session_close_after_all_streams oracleOk wfuel .outer s0good
    "sid" rfl (by decide) rfl rfl rfl
  refine ⟨h1, ?_, h3⟩
  refine h2 uptimeC ?_
  rw [show (s0good.Start oracleOk).launched = [uptimeC, diskC] from rfl]
  exact List.mem_cons_self _ _

/-- Claim C10: once the run has been ended by external cancellation and
cleanup has completed, the collector is marked closed, so even a
first-ever `Close` call is rejected with the explicit
already-cancelled-or-closed error and the state is untouched: the
aggregated per-metric errors are never returned to any caller. -/
theorem C10_external_cancel_counts_as_closed
    (o : ClientOracle) (fuel : String → Nat) (s0 : systemMetricsCollector)
    (rid : String) (hr : o.createRecord = .ok rid) (hrid : rid ≠ "")
    (hcp : s0.clientPresent = true) (hev : s0.events = [])
    (herr : (s0.Start o).err = none) :
    (externalCancelFinal o fuel s0).1.closed = true ∧
    ∀ (fuel2 : String → Nat) (launched2 : List MetricCollector),
      ((externalCancelFinal o fuel s0).1).Close o fuel2 launched2
        = ((externalCancelFinal o fuel s0).1,
            CloseOutcome.alreadyClosed
              "system metrics collector already cancelled or closed") := by
  obtain ⟨hstate, hlaunch⟩ := Start_ok_state o s0 rid hr herr
  obtain ⟨errs, evs, hseq, hclass, hmem⟩ :=
    runSupervisors_spec o fuel (s0.Start o).launched (s0.Start o).state
  have hsupCP : (runSupervisors o fuel (s0.Start o).launched (s0.Start o).state).clientPresent
      = true := by
    rw [hseq, hstate]
    simpa using hcp
  have hsupID : (runSupervisors o fuel (s0.Start o).launched (s0.Start o).state).id
      = rid := by
    rw [hseq, hstate]
  obtain ⟨hfe, hfc, hfr⟩ := closeOnCancel_spec o .outer
    (runSupervisors o fuel (s0.Start o).launched (s0.Start o).state)
    hsupCP (by rw [hsupID]; exact hrid)
  refine ⟨hfc, ?_⟩
  intro fuel2 launched2
  exact Close_already _ o fuel2 launched2 hfc

/-- Witness for C10 at the concrete externally-cancelled run. -/
theorem C10_witness :
    (externalCancelFinal oracleOk wfuel s0good).1.closed = true ∧
    ((externalCancelFinal oracleOk wfuel s0good).1).Close oracleOk wfuel []
      = ((externalCancelFinal oracleOk wfuel s0good).1,
          CloseOutcome.alreadyClosed
            "system metrics collector already cancelled or closed") := by
  obtain ⟨h1, h2⟩ := C10_external_cancel_counts_as_closed oracleOk wfuel s0good
    "sid" rfl (by decide) rfl rfl rfl
  exact ⟨h1, h2 wfuel []⟩

/-- Unfolding equation for `Close` on a not-yet-closed collector whose
derived cancel function is armed. -/
lemma Close_run (s : systemMetricsCollector) (o : ClientOracle)
    (fuel : String → Nat) (launched : List MetricCollector)
    (hcl : s.closed = false) (hset : s.streamingCancelSet = true) :
    s.Close o fuel launched
      = (((runSupervisors o fuel launched { s with streamingCancelled := true }).closeOnCancel
            o .streaming).1,
         CloseOutcome.ok (resolve
            ((runSupervisors o fuel launched { s with streamingCancelled := true }).closeOnCancel
              o .streaming).1.catcher)) := by
  unfold systemMetricsCollector.Close
  rw [hcl, hset]
  simp

/-- Claim C3: the first `Close` after a successful `Start` cancels the
derived scope, waits for cleanup, and returns the aggregated error
(`none` if no error was recorded); it closes the session and the client
exactly once; any second `Close` fails with the explicit already-closed
error and changes nothing, so the session-close and client-close are
never invoked a second time. -/
theorem C3_close_effective_once
    (o : ClientOracle) (fuel : String → Nat) (s0 : systemMetricsCollector)
    (rid : String) (hr : o.createRecord = .ok rid) (hrid : rid ≠ "")
    (hcp : s0.clientPresent = true) (hev : s0.events = [])
    (hcl : s0.closed = false) (herr : (s0.Start o).err = none) :
    (runStartClose o fuel s0).2
        = CloseOutcome.ok (resolve (runStartClose o fuel s0).1.catcher) ∧
    (runStartClose o fuel s0).1.closed = true ∧
    countCloseSession (runStartClose o fuel s0).1.events = 1 ∧
    countCloseClient (runStartClose o fuel s0).1.events = 1 ∧
    ∀ (fuel2 : String → Nat) (launched2 : List MetricCollector),
      ((runStartClose o fuel s0).1).Close o fuel2 launched2
        = ((runStartClose o fuel s0).1,
            CloseOutcome.alreadyClosed
              "system metrics collector already cancelled or closed") := by
  obtain ⟨hstate, hlaunch⟩ := Start_ok_state o s0 rid hr herr
  have hScl : (s0.Start o).state.closed = false := by
    rw [hstate]
    simpa using hcl
  have hSset : (s0.Start o).state.streamingCancelSet = true := by
    rw [hstate]
  have hrun : runStartClose o fuel s0
      = (((runSupervisors o fuel (s0.Start o).launched
            { (s0.Start o).state with streamingCancelled := true }).closeOnCancel
            o .streaming).1,
         CloseOutcome.ok (resolve
            ((runSupervisors o fuel (s0.Start o).launched
              { (s0.Start o).state with streamingCancelled := true }).closeOnCancel
              o .streaming).1.catcher)) := by
    unfold runStartClose
    exact Close_run _ o fuel _ hScl hSset
  obtain ⟨errs, evs, hseq, hclass, hmem⟩ :=
    runSupervisors_spec o fuel (s0.Start o).launched
      { (s0.Start o).state with streamingCancelled := true }
  have hsupCP : (runSupervisors o fuel (s0.Start o).launched
      { (s0.Start o).state with streamingCancelled := true }).clientPresent = true := by
    rw [hseq]
    simpa [hstate] using hcp
  have hsupID : (runSupervisors o fuel (s0.Start o).launched
      { (s0.Start o).state with streamingCancelled := true }).id = rid := by
    rw [hseq]
    simp [hstate]
  have hsupEv : (runSupervisors o fuel (s0.Start o).launched
      { (s0.Start o).state with streamingCancelled := true }).events
      = (s0.collectors.map fun c => Event.openStream c.name c.format) ++ evs := by
    rw [hseq]
    simp [hstate, hev]
  obtain ⟨hfe, hfc, hfr⟩ := closeOnCancel_spec o .streaming
    (runSupervisors o fuel (s0.Start o).launched
      { (s0.Start o).state with streamingCancelled := true })
    hsupCP (by rw [hsupID]; exact hrid)
  rw [hrun]
  refine ⟨rfl, hfc, ?_, ?_, ?_⟩
  · rw [hfe, hsupEv]
    rw [countCloseSession_append, countCloseSession_append,
      countCloseSession_opens, countCloseSession_of_sup evs hclass]
    simp [countCloseSession, List.countP_cons, List.countP_nil, isCloseSessionEv]
  · rw [hfe, hsupEv]
    rw [countCloseClient_append, countCloseClient_append,
      countCloseClient_opens, countCloseClient_of_sup evs hclass]
    simp [countCloseClient, List.countP_cons, List.countP_nil,
      isCloseClientEv, isCloseSessionEv]
  · intro fuel2 launched2
    exact Close_already _ o fuel2 launched2 hfc

/-- Witness for C3: on the concrete two-collector run, `Start` then
`Close` returns the resolved catcher, closes session and client once,
and a repeated `Close` is rejected without change. -/
theorem C3_witness :
    (runStartClose oracleOk wfuel s0good).2
        = CloseOutcome.ok (resolve (runStartClose oracleOk wfuel s0good).1.catcher) ∧
    (runStartClose oracleOk wfuel s0good).1.closed = true ∧
    countCloseSession (runStartClose oracleOk wfuel s0good).1.events = 1 ∧
    countCloseClient (runStartClose oracleOk wfuel s0good).1.events = 1 ∧
    ((runStartClose oracleOk wfuel s0good).1).Close oracleOk wfuel []
        = ((runStartClose oracleOk wfuel s0good).1,
            CloseOutcome.alreadyClosed
              "system metrics collector already cancelled or closed") := by
  obtain ⟨h1, h2, h3, h4, h5⟩ := C3_close_effective_once oracleOk wfuel s0good
    "sid" rfl (by decide) rfl rfl rfl rfl
  exact ⟨h1, h2, h3, h4, h5 wfuel []⟩

/-- Shifting helper: prepending the tick-0 write to the shifted tail gives
the unshifted write schedule. -/
lemma range_map_shift (p : Nat → Bytes) (interval now : Int) (tick n : Nat) :
    (p tick, now) ::
        ((List.range n).map fun i => (p (tick + 1 + i), now + interval + interval * i))
      = (List.range (n + 1)).map fun i => (p (tick + i), now + interval * i) := by
  rw [List.range_succ_eq_map, List.map_cons, List.map_map]
  congr 1
  · simp
  · apply List.map_congr_left
    intro i _
    simp only [Function.comp_apply, Prod.mk.injEq]
    constructor
    · congr 1
      omega
    · push_cast
      ring

/-- A supervisor whose collector and stream never fail performs one write
per delivered tick: the i-th write carries the i-th payload at virtual
time `now + i * interval`, and the loop ends by cancellation. -/
lemma collectLoop_ok (o : ClientOracle) (mc : MetricCollector) (interval : Int)
    (p : Nat → Bytes) (hw : ∀ n, o.writeErr mc.name n = none) :
    ∀ (fuel tick : Nat) (now : Int),
      (∀ i, i < fuel → mc.collect (tick + i) = .ok (p (tick + i))) →
      collectLoop o mc interval fuel tick now
        = ((List.range fuel).map fun i => (p (tick + i), now + interval * i),
           .cancelled) := by
  intro fuel
  induction fuel with
  | zero =>
    intro tick now _
    simp [collectLoop]
  | succ fuel ih =>
    intro tick now hc
    have h0 : mc.collect tick = .ok (p tick) := by
      simpa using hc 0 (Nat.succ_pos fuel)
    have hrec := ih (tick + 1) (now + interval) (fun i hi => by
      have h := hc (i + 1) (by omega)
      have harr : tick + (i + 1) = tick + 1 + i := by omega
      rw [harr] at h
      exact h)
    simp only [collectLoop, h0, hw tick]
    rw [hrec]
    rw [range_map_shift]

/-- A supervisor whose collector succeeds for the first `k` ticks and
fails on tick `k` (before cancellation) writes exactly the first `k`
payloads and stops with that collect failure. -/
lemma collectLoop_fail_at (o : ClientOracle) (mc : MetricCollector) (interval : Int)
    (p : Nat → Bytes) (m : String) (hw : ∀ n, o.writeErr mc.name n = none) :
    ∀ (k fuel tick : Nat) (now : Int), k < fuel →
      (∀ i, i < k → mc.collect (tick + i) = .ok (p (tick + i))) →
      mc.collect (tick + k) = .err m →
      collectLoop o mc interval fuel tick now
        = ((List.range k).map fun i => (p (tick + i), now + interval * i),
           .collectFailed m) := by
  intro k
  induction k with
  | zero =>
    intro fuel tick now hk _ hfail
    cases fuel with
    | zero => omega
    | succ f =>
      have h0 : mc.collect tick = .err m := by simpa using hfail
      simp [collectLoop, h0]
  | succ k ih =>
    intro fuel tick now hk hc hfail
    cases fuel with
    | zero => omega
    | succ f =>
      have h0 : mc.collect tick = .ok (p tick) := by
        simpa using hc 0 (Nat.succ_pos k)
      have hrec := ih f (tick + 1) (now + interval) (by omega)
        (fun i hi => by
          have h := hc (i + 1) (by omega)
          have harr : tick + (i + 1) = tick + 1 + i := by omega
          rw [harr] at h
          exact h)
        (by
          have harr : tick + (k + 1) = tick + 1 + k := by omega
          rw [harr] at hfail
          exact hfail)
      simp only [collectLoop, h0, hw tick]
      rw [hrec]
      rw [range_map_shift]

/-- A supervisor whose stream write fails on tick `k` (collections all
succeeding) writes the first `k` payloads and stops with that write
failure. -/
lemma collectLoop_write_fail_at (o : ClientOracle) (mc : MetricCollector)
    (interval : Int) (p : Nat → Bytes) (m : String) :
    ∀ (k fuel tick : Nat) (now : Int), k < fuel →
      (∀ i, i ≤ k → mc.collect (tick + i) = .ok (p (tick + i))) →
      (∀ i, i < k → o.writeErr mc.name (tick + i) = none) →
      o.writeErr mc.name (tick + k) = some m →
      collectLoop o mc interval fuel tick now
        = ((List.range k).map fun i => (p (tick + i), now + interval * i),
           .writeFailed m) := by
  intro k
  induction k with
  | zero =>
    intro fuel tick now hk hc _ hwk
    cases fuel with
    | zero => omega
    | succ f =>
      have h0 : mc.collect tick = .ok (p tick) := by simpa using hc 0 (Nat.le_refl 0)
      have hw0 : o.writeErr mc.name tick = some m := by simpa using hwk
      simp [collectLoop, h0, hw0]
  | succ k ih =>
    intro fuel tick now hk hc hwlt hwk
    cases fuel with
    | zero => omega
    | succ f =>
      have h0 : mc.collect tick = .ok (p tick) := by
        simpa using hc 0 (Nat.zero_le _)
      have hw0 : o.writeErr mc.name tick = none := by
        simpa using hwlt 0 (Nat.succ_pos k)
      have hrec := ih f (tick + 1) (now + interval) (by omega)
        (fun i hi => by
          have h := hc (i + 1) (by omega)
          have harr : tick + (i + 1) = tick + 1 + i := by omega
          rw [harr] at h
          exact h)
        (fun i hi => by
          have h := hwlt (i + 1) (by omega)
          have harr : tick + (i + 1) = tick + 1 + i := by omega
          rw [harr] at h
          exact h)
        (by
          have harr : tick + (k + 1) = tick + 1 + k := by omega
          rw [harr] at hwk
          exact hwk)
      simp only [collectLoop, h0, hw0]
      rw [hrec]
      rw [range_map_shift]

/-- A supervisor whose collection panics on tick `k` (before cancellation)
writes the first `k` payloads and stops with the recovered panic. -/
lemma collectLoop_panic_at (o : ClientOracle) (mc : MetricCollector)
    (interval : Int) (p : Nat → Bytes) (m : String)
    (hw : ∀ n, o.writeErr mc.name n = none) :
    ∀ (k fuel tick : Nat) (now : Int), k < fuel →
      (∀ i, i < k → mc.collect (tick + i) = .ok (p (tick + i))) →
      mc.collect (tick + k) = .panicked m →
      collectLoop o mc interval fuel tick now
        = ((List.range k).map fun i => (p (tick + i), now + interval * i),
           .panicked m) := by
  intro k
  induction k with
  | zero =>
    intro fuel tick now hk _ hfail
    cases fuel with
    | zero => omega
    | succ f =>
      have h0 : mc.collect tick = .panicked m := by simpa using hfail
      simp [collectLoop, h0]
  | succ k ih =>
    intro fuel tick now hk hc hfail
    cases fuel with
    | zero => omega
    | succ f =>
      have h0 : mc.collect tick = .ok (p tick) := by
        simpa using hc 0 (Nat.succ_pos k)
      have hrec := ih f (tick + 1) (now + interval) (by omega)
        (fun i hi => by
          have h := hc (i + 1) (by omega)
          have harr : tick + (i + 1) = tick + 1 + i := by omega
          rw [harr] at h
          exact h)
        (by
          have harr : tick + (k + 1) = tick + 1 + k := by omega
          rw [harr] at hfail
          exact hfail)
      simp only [collectLoop, h0, hw tick]
      rw [hrec]
      rw [range_map_shift]

/-- A fault-free supervisor delivers every payload (at times 0, interval,
2·interval, …) and records no error. -/
lemma timedCollect_all_ok (o : ClientOracle) (rid : String) (interval : Int)
    (mc : MetricCollector) (fuel : Nat) (p : Nat → Bytes)
    (hc : ∀ n, mc.collect n = .ok (p n)) (hw : ∀ n, o.writeErr mc.name n = none)
    (hcs : o.closeStreamErr mc.name = none) :
    (timedCollect o rid interval mc fuel).writes
        = (List.range fuel).map (fun i => (p i, interval * i)) ∧
    (timedCollect o rid interval mc fuel).errors = [] := by
  have h := collectLoop_ok o mc interval p hw fuel 0 0 (fun i _ => by simpa using hc i)
  unfold timedCollect
  rw [h]
  constructor
  · simp
  · simp [hcs]

/-- A supervisor whose collector fails on tick `k` before cancellation
writes exactly the first `k` payloads and records exactly the one collect
error. -/
lemma timedCollect_fail_at (o : ClientOracle) (rid : String) (interval : Int)
    (mc : MetricCollector) (fuel : Nat) (p : Nat → Bytes) (k : Nat) (m : String)
    (hk : k < fuel)
    (hc : ∀ i, i < k → mc.collect i = .ok (p i)) (hck : mc.collect k = .err m)
    (hw : ∀ n, o.writeErr mc.name n = none)
    (hcs : o.closeStreamErr mc.name = none) :
    (timedCollect o rid interval mc fuel).writes
        = (List.range k).map (fun i => (p i, interval * i)) ∧
    (timedCollect o rid interval mc fuel).errors = [collectErrMsg rid mc.name m] := by
  have h := collectLoop_fail_at o mc interval p m hw k fuel 0 0 hk
    (fun i hi => by simpa using hc i hi) (by simpa using hck)
  unfold timedCollect
  rw [h]
  constructor
  · simp
  · simp [hcs]

/-- A supervisor whose stream write fails on tick `k` writes the first
`k` payloads and records exactly the one write error. -/
lemma timedCollect_write_fail_at (o : ClientOracle) (rid : String) (interval : Int)
    (mc : MetricCollector) (fuel : Nat) (p : Nat → Bytes) (k : Nat) (m : String)
    (hk : k < fuel)
    (hc : ∀ i, i ≤ k → mc.collect i = .ok (p i))
    (hwlt : ∀ i, i < k → o.writeErr mc.name i = none)
    (hwk : o.writeErr mc.name k = some m)
    (hcs : o.closeStreamErr mc.name = none) :
    (timedCollect o rid interval mc fuel).writes
        = (List.range k).map (fun i => (p i, interval * i)) ∧
    (timedCollect o rid interval mc fuel).errors = [writeErrMsg rid mc.name m] := by
  have h := collectLoop_write_fail_at o mc interval p m k fuel 0 0 hk
    (fun i hi => by simpa using hc i hi) (fun i hi => by simpa using hwlt i hi)
    (by simpa using hwk)
  unfold timedCollect
  rw [h]
  constructor
  · simp
  · simp [hcs]

/-- A supervisor whose collection panics on tick `k` writes the first `k`
payloads and records exactly the one recovered-panic error. -/
lemma timedCollect_panic_at (o : ClientOracle) (rid : String) (interval : Int)
    (mc : MetricCollector) (fuel : Nat) (p : Nat → Bytes) (k : Nat) (m : String)
    (hk : k < fuel)
    (hc : ∀ i, i < k → mc.collect i = .ok (p i)) (hck : mc.collect k = .panicked m)
    (hw : ∀ n, o.writeErr mc.name n = none)
    (hcs : o.closeStreamErr mc.name = none) :
    (timedCollect o rid interval mc fuel).writes
        = (List.range k).map (fun i => (p i, interval * i)) ∧
    (timedCollect o rid interval mc fuel).errors = [panicErrMsg rid mc.name m] := by
  have h := collectLoop_panic_at o mc interval p m hw k fuel 0 0 hk
    (fun i hi => by simpa using hc i hi) (by simpa using hck)
  unfold timedCollect
  rw [h]
  constructor
  · simp
  · simp [hcs]

/-- Claim C4: a failure of one source's collect — or of its stream write,
or a recovered panic inside its supervisor — records exactly one error
for that failure and terminates only that source's supervisor (after
exactly its successful writes); every other supervisor's stream receives
all of its collected payloads until the run ends, and in a joint run the
shared catcher gains exactly the failing sources' errors while the trace
holds every healthy write. -/
theorem C4_fault_isolation
    (o : ClientOracle) (s : systemMetricsCollector) (fuel : String → Nat)
    (a b c d : MetricCollector) (pa pb pc pd : Nat → Bytes)
    (kb kc kd : Nat) (m1 m2 m3 : String)
    (hca : ∀ n, a.collect n = .ok (pa n))
    (hwa : ∀ n, o.writeErr a.name n = none)
    (hcsa : o.closeStreamErr a.name = none)
    (hkb : kb < fuel b.name)
    (hcb : ∀ i, i < kb → b.collect i = .ok (pb i))
    (hcbk : b.collect kb = .err m1)
    (hwb : ∀ n, o.writeErr b.name n = none)
    (hcsb : o.closeStreamErr b.name = none)
    (hkc : kc < fuel c.name)
    (hcc : ∀ i, i ≤ kc → c.collect i = .ok (pc i))
    (hwclt : ∀ i, i < kc → o.writeErr c.name i = none)
    (hwck : o.writeErr c.name kc = some m2)
    (hcsc : o.closeStreamErr c.name = none)
    (hkd : kd < fuel d.name)
    (hcd : ∀ i, i < kd → d.collect i = .ok (pd i))
    (hcdk : d.collect kd = .panicked m3)
    (hwd : ∀ n, o.writeErr d.name n = none)
    (hcsd : o.closeStreamErr d.name = none) :
    (timedCollect o s.id s.interval b (fuel b.name)).errors
        = [collectErrMsg s.id b.name m1] ∧
    (timedCollect o s.id s.interval b (fuel b.name)).writes.length = kb ∧
    (timedCollect o s.id s.interval c (fuel c.name)).errors
        = [writeErrMsg s.id c.name m2] ∧
    (timedCollect o s.id s.interval c (fuel c.name)).writes.length = kc ∧
    (timedCollect o s.id s.interval d (fuel d.name)).errors
        = [panicErrMsg s.id d.name m3] ∧
    (timedCollect o s.id s.interval d (fuel d.name)).writes.length = kd ∧
    (timedCollect o s.id s.interval a (fuel a.name)).writes
        = (List.range (fuel a.name)).map (fun i => (pa i, s.interval * i)) ∧
    (timedCollect o s.id s.interval a (fuel a.name)).errors = [] ∧
    (runSupervisors o fuel [a, b, c, d] s).catcher
        = s.catcher ++ [collectErrMsg s.id b.name m1, writeErrMsg s.id c.name m2,
            panicErrMsg s.id d.name m3] ∧
    ∀ i, i < fuel a.name →
      Event.write a.name (pa i) ∈ (runSupervisors o fuel [a, b, c, d] s).events := by
  obtain ⟨haw, hae⟩ := timedCollect_all_ok o s.id s.interval a (fuel a.name) pa hca hwa hcsa
  obtain ⟨hbw, hbe⟩ :=
    timedCollect_fail_at o s.id s.interval b (fuel b.name) pb kb m1 hkb hcb hcbk hwb hcsb
  obtain ⟨hcw, hce⟩ :=
    timedCollect_write_fail_at o s.id s.interval c (fuel c.name) pc kc m2 hkc hcc
      hwclt hwck hcsc
  obtain ⟨hdw, hde⟩ :=
    timedCollect_panic_at o s.id s.interval d (fuel d.name) pd kd m3 hkd hcd hcdk hwd hcsd
  refine ⟨hbe, ?_, hce, ?_, hde, ?_, haw, hae, ?_, ?_⟩
  · rw [hbw]
    simp
  · rw [hcw]
    simp
  · rw [hdw]
    simp
  · have hcat : (runSupervisors o fuel [a, b, c, d] s).catcher
        = (((s.catcher ++ (timedCollect o s.id s.interval a (fuel a.name)).errors)
            ++ (timedCollect o s.id s.interval b (fuel b.name)).errors)
            ++ (timedCollect o s.id s.interval c (fuel c.name)).errors)
          ++ (timedCollect o s.id s.interval d (fuel d.name)).errors := rfl
    rw [hcat, hae, hbe, hce, hde]
    simp
  · intro i hi
    have hmemA : Event.write a.name (pa i)
        ∈ (timedCollect o s.id s.interval a (fuel a.name)).events := by
      rw [timedCollect_events, haw]
      refine List.mem_append_left _ ?_
      rw [List.map_map]
      exact List.mem_map.mpr ⟨i, List.mem_range.mpr hi, rfl⟩
    show Event.write a.name (pa i)
        ∈ (((s.events ++ (timedCollect o s.id s.interval a (fuel a.name)).events)
            ++ (timedCollect o s.id s.interval b (fuel b.name)).events)
            ++ (timedCollect o s.id s.interval c (fuel c.name)).events)
          ++ (timedCollect o s.id s.interval d (fuel d.name)).events
    exact List.mem_append_left _ (List.mem_append_left _
      (List.mem_append_left _ (List.mem_append_right _ hmemA)))

/-- Witness for C4: "uptime" always succeeds, "disk" fails collection on
its second tick, "net" fails its first stream write, "flaky" panics on
its second tick; each faulty source records exactly its one error after
its successful writes, uptime delivers all three payloads, and the joint
catcher holds exactly the three errors. -/
theorem C4_witness :
    (timedCollect oracleC4 s0good.id s0good.interval diskC (wfuel diskC.name)).errors
        = [collectErrMsg s0good.id diskC.name "disk failure"] ∧
    (timedCollect oracleC4 s0good.id s0good.interval diskC (wfuel diskC.name)).writes.length
        = 1 ∧
    (timedCollect oracleC4 s0good.id s0good.interval netC (wfuel netC.name)).errors
        = [writeErrMsg s0good.id netC.name "write refused"] ∧
    (timedCollect oracleC4 s0good.id s0good.interval netC (wfuel netC.name)).writes.length
        = 0 ∧
    (timedCollect oracleC4 s0good.id s0good.interval flakyC (wfuel flakyC.name)).errors
        = [panicErrMsg s0good.id flakyC.name "boom"] ∧
    (timedCollect oracleC4 s0good.id s0good.interval flakyC (wfuel flakyC.name)).writes.length
        = 1 ∧
    (timedCollect oracleC4 s0good.id s0good.interval uptimeC (wfuel uptimeC.name)).writes
        = (List.range (wfuel uptimeC.name)).map
            (fun i => (([i] : Bytes), s0good.interval * (i : Int))) ∧
    (timedCollect oracleC4 s0good.id s0good.interval uptimeC (wfuel uptimeC.name)).errors
        = [] ∧
    (runSupervisors oracleC4 wfuel [uptimeC, diskC, netC, flakyC] s0good).catcher
        = s0good.catcher ++ [collectErrMsg s0good.id diskC.name "disk failure",
            writeErrMsg s0good.id netC.name "write refused",
            panicErrMsg s0good.id flakyC.name "boom"] ∧
    Event.write uptimeC.name [0]
        ∈ (runSupervisors oracleC4 wfuel [uptimeC, diskC, netC, flakyC] s0good).events := by
  obtain ⟨h1, h2, h3, h4, h5, h6, h7, h8, h9, h10⟩ :=
    C4_fault_isolation oracleC4 s0good wfuel uptimeC diskC netC flakyC
      (fun n => [n]) (fun _ => [7]) (fun n => [n, n]) (fun _ => [9])
      1 0 1 "disk failure" "write refused" "boom"
      (fun n => rfl) (fun n => rfl) rfl
      (by decide)
      (fun i hi => by
        have h : i = 0 := by omega
        subst h
        rfl)
      rfl (fun n => rfl) rfl
      (by decide)
      (fun i hi => rfl)
      (fun i hi => absurd hi (by omega))
      rfl rfl
      (by decide)
      (fun i hi => by
        have h : i = 0 := by omega
        subst h
        rfl)
      rfl (fun n => rfl) rfl
  exact ⟨h1, h2, h3, h4, h5, h6, h7, h8, h9, h10 0 (by decide)⟩

/-- Claim C5: a supervisor collects immediately on activation (virtual
time 0) and then once per configured interval; a source producing
`p1, p2, p3` on three successive ticks has exactly `p1, p2, p3` written
to its stream, in that order, with no duplication or reordering, and no
error recorded. -/
theorem C5_three_tick_round_trip
    (o : ClientOracle) (rid : String) (interval : Int) (mc : MetricCollector)
    (p1 p2 p3 : Bytes)
    (h0 : mc.collect 0 = .ok p1) (h1 : mc.collect 1 = .ok p2)
    (h2 : mc.collect 2 = .ok p3)
    (hw : ∀ n, o.writeErr mc.name n = none)
    (hcs : o.closeStreamErr mc.name = none) :
    (timedCollect o rid interval mc 3).writes
        = [(p1, 0), (p2, interval), (p3, 2 * interval)] ∧
    (timedCollect o rid interval mc 3).events
        = [Event.write mc.name p1, Event.write mc.name p2, Event.write mc.name p3,
           Event.closeStream mc.name] ∧
    (timedCollect o rid interval mc 3).errors = [] := by
  have hloop : collectLoop o mc interval 3 0 0
      = ([(p1, 0), (p2, 0 + interval), (p3, 0 + interval + interval)], .cancelled) := by
    simp [collectLoop, h0, h1, h2, hw 0, hw 1, hw 2]
  have hwrites : (timedCollect o rid interval mc 3).writes
      = [(p1, 0), (p2, interval), (p3, 2 * interval)] := by
    unfold timedCollect
    rw [hloop]
    norm_num [two_mul]
  refine ⟨hwrites, ?_, ?_⟩
  · rw [timedCollect_events, hwrites]
    rfl
  · unfold timedCollect
    rw [hloop]
    simp [hcs]

/-- Witness for C5 with the concrete always-succeeding collector. -/
theorem C5_witness :
    (timedCollect oracleOk "sid" 10 uptimeC 3).writes
        = [([0], 0), ([1], 10), ([2], 2 * 10)] ∧
    (timedCollect oracleOk "sid" 10 uptimeC 3).events
        = [Event.write uptimeC.name [0], Event.write uptimeC.name [1],
           Event.write uptimeC.name [2], Event.closeStream uptimeC.name] ∧
    (timedCollect oracleOk "sid" 10 uptimeC 3).errors = [] :=
  C5_three_tick_round_trip oracleOk "sid" 10 uptimeC [0] [1] [2]
    rfl rfl rfl (fun n => rfl) rfl

end SystemMetrics
